import Mathlib

/-!
Verification of the prediction pipeline in `trainedmodels/alzaimerpark.py` and
the result mapping in `routes/prediction_routes.py`.

The embedding models a numpy array as a shape together with row-major flat
data of 8-bit channel values (natural numbers on the 0-255 scale).  Floating
point means are modelled over the rationals.  External PIL decoding and
resizing are modelled by their results: an uploaded byte buffer is represented
by the decoded array of the original image and the decoded array of the image
resized to 150 by 150 (each `none` when decoding raises).
-/

/-- A numpy ndarray of unsigned 8-bit channel values: its shape and its
row-major flat data.  A well-formed array has `data.length = shape.prod`. -/
structure NPArray where
  shape : List Nat
  data : List Nat
deriving DecidableEq, Repr

/-- Well-formedness of a modelled numpy array: the flat data has exactly
`shape.prod` entries, as in numpy. -/
def NPArray.wf (a : NPArray) : Prop :=
  a.data.length = a.shape.prod

instance (a : NPArray) : Decidable a.wf := by
  unfold NPArray.wf; infer_instance

/-- Result of `validate_image_for_medical_scan`: the dict with keys
`is_valid` and `reason`. -/
structure ValidationResult where
  is_valid : Bool
  reason : String
deriving DecidableEq, Repr

/-- The channel plane `data[:,:,k]` of a flat row-major buffer whose innermost
dimension has extent `c`, cast to float (`astype(float)`): the entries at flat
indices congruent to `k` modulo `c`. -/
def channelPlane (c k : Nat) (data : List Nat) : List ℚ :=
  (data.enum.filter (fun p => p.1 % c = k)).map (fun p => (p.2 : ℚ))

/-- `np.abs` on a float, written so that the kernel can evaluate it. -/
def ratAbs (x : ℚ) : ℚ := if x < 0 then -x else x

/-- `np.mean(np.abs(u - v))` for two equal-length channel planes of an image
with `n` pixels: the sum of absolute differences divided by `n`. -/
def meanAbsDiff (u v : List ℚ) (n : ℚ) : ℚ :=
  (List.zipWith (fun x y => ratAbs (x - y)) u v).sum / n

/-- The `color_diff` computation of `validate_image_for_medical_scan` on a
3-dimensional array: sum of the mean absolute pairwise differences of the
first three channel planes (R-G, G-B, R-B).  `none` models the IndexError
raised by the channel slicing when the array has fewer than 3 channels. -/
def colorDiffQ (a : NPArray) : Option ℚ :=
  match a.shape with
  | [h, w, c] =>
    if 3 ≤ c then
      let n : ℚ := ((h * w : Nat) : ℚ)
      let r := channelPlane c 0 a.data
      let g := channelPlane c 1 a.data
      let b := channelPlane c 2 a.data
      some (meanAbsDiff r g n + meanAbsDiff g b n + meanAbsDiff r b n)
    else none
  | _ => none

/-- `validate_image_for_medical_scan(file_bytes)`.  The argument is the result
of decoding the bytes (`np.array(Image.open(io.BytesIO(file_bytes)))`), with
`none` modelling a decode failure; any exception is caught and turned into an
accepting result whose reason says validation was skipped. -/
def validate_image_for_medical_scan (decoded : Option NPArray) : ValidationResult :=
  match decoded with
  | none => ⟨true, "Validation skipped due to error."⟩
  | some image_array =>
    if image_array.shape.length = 3 then
      match colorDiffQ image_array with
      | none => ⟨true, "Validation skipped due to error."⟩
      | some color_diff =>
        if color_diff > 20 then
          ⟨false, "This appears to be a color photograph. Please upload a medical scan (MRI, CT, X-ray, etc.)."⟩
        else
          ⟨true, "Image accepted for analysis."⟩
    else
      ⟨true, "Image accepted for analysis."⟩

/-- `cv2.cvtColor(a, cv2.COLOR_GRAY2RGB)` on a 2-dimensional array: the shape
gains a trailing extent 3 and every value is replicated into three channels. -/
def gray2rgb (a : NPArray) : NPArray :=
  { shape := a.shape ++ [3]
    data := (a.data.map (fun v => [v, v, v])).flatten }

/-- `cv2.cvtColor(a, cv2.COLOR_RGBA2RGB)` on an array with innermost extent 4:
the alpha channel (every fourth value) is dropped. -/
def rgba2rgb (a : NPArray) : NPArray :=
  { shape := a.shape.dropLast ++ [3]
    data := ((a.data.enum.filter (fun p => p.1 % 4 ≠ 3)).map (fun p => p.2)) }

/-- The channel-format handling of `preprocess_image_from_bytes`: a
2-dimensional array goes through GRAY2RGB, an array whose last shape entry is
4 goes through RGBA2RGB, and any other array is left unchanged. -/
def normalize_channels (image_array : NPArray) : NPArray :=
  if image_array.shape.length = 2 then gray2rgb image_array
  else if image_array.shape.getLast? = some 4 then rgba2rgb image_array
  else image_array

/-- `np.expand_dims(a, axis=0)`: a leading extent 1 is added to the shape and
the data is unchanged. -/
def expand_dims0 (a : NPArray) : NPArray :=
  { shape := 1 :: a.shape, data := a.data }

/-- An uploaded byte buffer, represented by the results of the two external
PIL decodes the module performs on it: `decoded` is
`np.array(Image.open(io.BytesIO(file_bytes)))` and `decodedResized` is
`np.array(Image.open(io.BytesIO(file_bytes)).resize((150, 150)))`; `none`
models the decode raising an exception. -/
structure FileBytes where
  decoded : Option NPArray
  decodedResized : Option NPArray

/-- The message text produced when wrapping an exception raised inside
`preprocess_image_from_bytes`. -/
def preprocessWrap (s : String) : String :=
  "Failed to preprocess image: " ++ s

/-- `preprocess_image_from_bytes(file_bytes)`: run the validator and raise a
ValueError with its reason when invalid; otherwise decode, resize to 150x150,
normalize the channel layout and add a leading batch dimension.  Every
exception in the body, including the deliberate validation ValueError, is
caught and re-raised wrapped in a message starting with
"Failed to preprocess image: ". -/
def preprocess_image_from_bytes (file_bytes : FileBytes) : Except String NPArray :=
  let validation_result := validate_image_for_medical_scan file_bytes.decoded
  if validation_result.is_valid = false then
    Except.error (preprocessWrap validation_result.reason)
  else
    match file_bytes.decodedResized with
    | none => Except.error (preprocessWrap "cannot identify image file")
    | some image_array => Except.ok (expand_dims0 (normalize_channels image_array))

/-- The maximum entry of a nonempty list of rationals, `np.max`; 0 on the
empty list (on which numpy raises instead, guarded at the call site). -/
def listMax : List ℚ → ℚ
  | [] => 0
  | x :: xs => xs.foldl max x

/-- Index of the first occurrence of `v` in the list. -/
def idxOfQ (v : ℚ) : List ℚ → Nat
  | [] => 0
  | x :: xs => if x = v then 0 else idxOfQ v xs + 1

/-- `np.argmax` on a row: the index of the first occurrence of the maximum
value (numpy documents that ties return the first occurrence). -/
def np_argmax (l : List ℚ) : Nat := idxOfQ (listMax l) l

/-- The loaded keras classifier, as the function `MODEL.predict`: it maps an
input array to a 2-dimensional float output, one row of class scores per
batch entry. -/
def KerasModel := NPArray → List (List ℚ)

/-- The `class_mapping` dict of `image_prediction` (also the module-level
`CLASS_MAPPING`): 0 is CONTROL, 1 is AD, 2 is PD. -/
def class_mapping (class_id : Nat) : Option String :=
  if class_id = 0 then some "CONTROL"
  else if class_id = 1 then some "AD"
  else if class_id = 2 then some "PD"
  else none

/-- The result dict of `image_prediction`. -/
structure PredictionResult where
  prediction : String
  confidence : ℚ
  class_id : Nat
  raw_probabilities : List (List ℚ)
deriving DecidableEq, Repr

/-- `is_model_loaded()`: whether the module-level MODEL is not None. -/
def is_model_loaded (MODEL : Option KerasModel) : Bool := MODEL.isSome

/-- `image_prediction(image_array)` with the module-level MODEL passed
explicitly (`none` models MODEL is None).  When MODEL is None a ValueError
is raised before any forward pass; every exception is caught and re-raised
with a message starting with "Prediction failed: ".  Otherwise
`class_id = np.argmax(prd, axis=1)[0]`, `confidence = float(np.max(prd))`,
the prediction label comes from `class_mapping.get(class_id, "Unknown")` and
`raw_probabilities = prd.tolist()` verbatim. -/
def image_prediction (MODEL : Option KerasModel) (image_array : NPArray) :
    Except String PredictionResult :=
  match MODEL with
  | none => Except.error "Prediction failed: Model not loaded"
  | some m =>
    match m image_array with
    | [] => Except.error "Prediction failed: index 0 is out of bounds for axis 0 with size 0"
    | row :: rest =>
      if row = [] then
        Except.error "Prediction failed: attempt to get argmax of an empty sequence"
      else
        let prd := row :: rest
        let class_id := np_argmax row
        Except.ok
          { prediction := (class_mapping class_id).getD "Unknown"
            confidence := listMax prd.flatten
            class_id := class_id
            raw_probabilities := prd }

/-- One entry of the `prediction_details` table in the `/predict` route. -/
structure PredictionDetails where
  name : String
  full_name : String
  description : String
  recommendation : String
deriving DecidableEq, Repr

/-- The CONTROL entry of `prediction_details`. -/
def controlDetails : PredictionDetails :=
  { name := "CONTROL"
    full_name := "Normal Brain Scan"
    description := "The brain scan appears normal with no signs of neurological disorders."
    recommendation := "Continue regular health monitoring. Maintain a healthy lifestyle with proper diet, exercise, and mental stimulation." }

/-- The AD entry of `prediction_details`. -/
def adDetails : PredictionDetails :=
  { name := "AD"
    full_name := "Alzheimer\x27s Disease"
    description := "The scan shows patterns consistent with Alzheimer\x27s disease, characterized by brain tissue changes."
    recommendation := "Consult with a neurologist for comprehensive evaluation and potential treatment options. Early intervention may help manage symptoms." }

/-- The PD entry of `prediction_details`. -/
def pdDetails : PredictionDetails :=
  { name := "PD"
    full_name := "Parkinson\x27s Disease"
    description := "The scan indicates patterns associated with Parkinson\x27s disease, affecting movement and motor functions."
    recommendation := "Schedule an appointment with a movement disorder specialist. Physical therapy and medication may help manage symptoms." }

/-- The `prediction_details` lookup table of the `/predict` route, keyed by
the prediction label string. -/
def prediction_details (prediction_class : String) : Option PredictionDetails :=
  if prediction_class = "CONTROL" then some controlDetails
  else if prediction_class = "AD" then some adDetails
  else if prediction_class = "PD" then some pdDetails
  else none

/-- The route line
`current_prediction = prediction_details.get(prediction_class, prediction_details["CONTROL"])`. -/
def current_prediction (prediction_class : String) : PredictionDetails :=
  (prediction_details prediction_class).getD controlDetails

/-- The class-to-metadata mapping applied to a prediction result: the
composition of the `class_mapping.get(class_id, "Unknown")` labelling in
`image_prediction` with the `prediction_details` lookup (defaulting to the
CONTROL entry) in the route. -/
def mapToPayload (class_id : Nat) : PredictionDetails :=
  current_prediction ((class_mapping class_id).getD "Unknown")

/-- Modelled from the spec: the frozen classifier artifact
(`efficient_net_B0.h5`, consumed read-only and not part of the repository)
maps a prepared tensor to a 3-class probability distribution, so a conforming
forward-pass output row has exactly 3 entries and sums to 1.0 within the
spec tolerance 1e-4. -/
def IsProbVector3 (p : List ℚ) : Prop :=
  p.length = 3 ∧ |p.sum - 1| ≤ 1 / 10000

instance (p : List ℚ) : Decidable (IsProbVector3 p) := by
  unfold IsProbVector3; infer_instance

theorem le_foldl_max (xs : List ℚ) (a : ℚ) : a ≤ xs.foldl max a := by
  induction xs generalizing a with
  | nil => exact le_refl a
  | cons x xs ih => exact le_trans (le_max_left a x) (ih (max a x))

theorem mem_le_foldl_max (xs : List ℚ) (a x : ℚ) (hx : x ∈ xs) : x ≤ xs.foldl max a := by
  induction xs generalizing a with
  | nil => cases hx
  | cons y ys ih =>
    rcases List.mem_cons.mp hx with h | h
    · subst h
      exact le_trans (le_max_right a x) (le_foldl_max ys (max a x))
    · exact ih (max a y) h

theorem foldl_max_eq_or_mem (xs : List ℚ) (a : ℚ) :
    xs.foldl max a = a ∨ xs.foldl max a ∈ xs := by
  induction xs generalizing a with
  | nil => exact Or.inl rfl
  | cons x xs ih =>
    rcases ih (max a x) with h | h
    · rcases max_choice a x with hc | hc
      · exact Or.inl (by rw [List.foldl_cons, h, hc])
      · exact Or.inr (by rw [List.foldl_cons, h, hc]; exact List.mem_cons_self x xs)
    · exact Or.inr (List.mem_cons_of_mem x h)

theorem listMax_mem (l : List ℚ) (h : l ≠ []) : listMax l ∈ l := by
  match l with
  | [] => exact absurd rfl h
  | x :: xs =>
    rcases foldl_max_eq_or_mem xs x with hc | hc
    · simp [listMax, hc]
    · exact List.mem_cons_of_mem x hc

theorem le_listMax (l : List ℚ) (x : ℚ) (hx : x ∈ l) : x ≤ listMax l := by
  match l with
  | [] => cases hx
  | y :: ys =>
    rcases List.mem_cons.mp hx with h | h
    · subst h; exact le_foldl_max ys x
    · exact mem_le_foldl_max ys y x h

theorem idxOfQ_lt_length (v : ℚ) (l : List ℚ) (h : v ∈ l) : idxOfQ v l < l.length := by
  induction l with
  | nil => cases h
  | cons x xs ih =>
    by_cases hx : x = v
    · simp [idxOfQ, hx]
    · rcases List.mem_cons.mp h with h' | h'
      · exact absurd h'.symm hx
      · simpa [idxOfQ, hx] using ih h'

theorem idxOfQ_get (v : ℚ) (l : List ℚ) (h : v ∈ l) :
    l.get ⟨idxOfQ v l, idxOfQ_lt_length v l h⟩ = v := by
  induction l with
  | nil => cases h
  | cons x xs ih =>
    by_cases hx : x = v
    · simp [idxOfQ, hx]
    · rcases List.mem_cons.mp h with h' | h'
      · exact absurd h'.symm hx
      · simpa [idxOfQ, hx] using ih h'

theorem get_ne_of_lt_idxOfQ (v : ℚ) (l : List ℚ) (j : Nat) (hj : j < idxOfQ v l)
    (hl : j < l.length) : l.get ⟨j, hl⟩ ≠ v := by
  induction l generalizing j with
  | nil => cases hl
  | cons x xs ih =>
    by_cases hx : x = v
    · simp [idxOfQ, hx] at hj
    · cases j with
      | zero => simpa using hx
      | succ n =>
        have hj' : n < idxOfQ v xs := by
          simp [idxOfQ, hx] at hj
          omega
        simpa using ih n hj' (by simpa using hl)

theorem image_prediction_some_eq (m : KerasModel) (t : NPArray) (row : List ℚ)
    (rest : List (List ℚ)) (hm : m t = row :: rest) (hne : row ≠ []) :
    image_prediction (some m) t = Except.ok
      { prediction := (class_mapping (np_argmax row)).getD "Unknown"
        confidence := listMax (row :: rest).flatten
        class_id := np_argmax row
        raw_probabilities := row :: rest } := by
  unfold image_prediction
  dsimp only
  rw [hm]
  simp [hne]

/-- C3: when the module-level MODEL is None (the model handle is Absent),
is_model_loaded reports false and image_prediction fails on EVERY input
tensor with the deliberate "Model not loaded" error, wrapped by the
exception handler into "Prediction failed: Model not loaded"; no forward
pass exists to be attempted, so the result does not depend on the tensor. -/
theorem C3_model_absent_refuses (t : NPArray) :
    is_model_loaded none = false ∧
    image_prediction none t = Except.error "Prediction failed: Model not loaded" :=
  ⟨rfl, rfl⟩

/-- C2: for a loaded model whose forward pass on the prepared tensor returns
a single nonempty row of probabilities, image_prediction succeeds, its
class_id is np.argmax of the row and its confidence is np.max of the row;
moreover np.argmax as modelled is the first-occurrence argmax (the entry at
class_id attains the maximum and every strictly earlier entry is strictly
smaller, so ties are broken by the lowest index) and np.max is the maximum
value of the vector (it is attained and bounds every entry). -/
theorem C2_argmax_confidence (m : KerasModel) (t : NPArray) (row : List ℚ)
    (hm : m t = [row]) (hne : row ≠ []) :
    image_prediction (some m) t = Except.ok
      { prediction := (class_mapping (np_argmax row)).getD "Unknown"
        confidence := listMax row
        class_id := np_argmax row
        raw_probabilities := [row] } ∧
    listMax row ∈ row ∧
    (∀ x ∈ row, x ≤ listMax row) ∧
    np_argmax row < row.length ∧
    row.getD (np_argmax row) 0 = listMax row ∧
    (∀ j, j < np_argmax row → row.getD j 0 < listMax row) := by
  have hmax : listMax row ∈ row := listMax_mem row hne
  have hlt : np_argmax row < row.length := idxOfQ_lt_length (listMax row) row hmax
  refine ⟨?_, hmax, fun x hx => le_listMax row x hx, hlt, ?_, ?_⟩
  · have h := image_prediction_some_eq m t row [] hm hne
    simpa using h
  · rw [List.getD_eq_get row 0 hlt]
    exact idxOfQ_get (listMax row) row hmax
  · intro j hj
    have hjl : j < row.length := lt_trans hj hlt
    rw [List.getD_eq_get row 0 hjl]
    exact lt_of_le_of_ne (le_listMax row _ (List.get_mem row j hjl))
      (get_ne_of_lt_idxOfQ (listMax row) row j hj hjl)

/-- C2 witness: the theorem applied to the concrete model that outputs the
single row [1/4, 1/2, 1/4] on a 1x1x1x3 tensor of zeros. -/
theorem C2_argmax_confidence_witness :
    image_prediction (some (fun _ => [[(1 : ℚ)/4, 1/2, 1/4]])) ⟨[1, 1, 1, 3], [0, 0, 0]⟩ =
      Except.ok
        { prediction := (class_mapping (np_argmax [(1 : ℚ)/4, 1/2, 1/4])).getD "Unknown"
          confidence := listMax [(1 : ℚ)/4, 1/2, 1/4]
          class_id := np_argmax [(1 : ℚ)/4, 1/2, 1/4]
          raw_probabilities := [[(1 : ℚ)/4, 1/2, 1/4]] } ∧
    listMax [(1 : ℚ)/4, 1/2, 1/4] ∈ [(1 : ℚ)/4, 1/2, 1/4] ∧
    (∀ x ∈ [(1 : ℚ)/4, 1/2, 1/4], x ≤ listMax [(1 : ℚ)/4, 1/2, 1/4]) ∧
    np_argmax [(1 : ℚ)/4, 1/2, 1/4] < ([(1 : ℚ)/4, 1/2, 1/4] : List ℚ).length ∧
    ([(1 : ℚ)/4, 1/2, 1/4] : List ℚ).getD (np_argmax [(1 : ℚ)/4, 1/2, 1/4]) 0 =
      listMax [(1 : ℚ)/4, 1/2, 1/4] ∧
    (∀ j, j < np_argmax [(1 : ℚ)/4, 1/2, 1/4] →
      ([(1 : ℚ)/4, 1/2, 1/4] : List ℚ).getD j 0 < listMax [(1 : ℚ)/4, 1/2, 1/4]) :=
  C2_argmax_confidence (fun _ => [[(1 : ℚ)/4, 1/2, 1/4]]) ⟨[1, 1, 1, 3], [0, 0, 0]⟩
    [(1 : ℚ)/4, 1/2, 1/4] rfl (by decide)

/-- C4: for a loaded model whose forward pass returns a single row that is a
3-class probability distribution (the classifier is modelled from the spec,
its artifact being external to the repository), image_prediction succeeds
and returns that row verbatim as raw_probabilities, in the given class-index
order, and the row has exactly 3 entries summing to 1.0 within 1e-4. -/
theorem C4_raw_probabilities (m : KerasModel) (t : NPArray) (p : List ℚ)
    (hm : m t = [p]) (hp : IsProbVector3 p) :
    (image_prediction (some m) t).map PredictionResult.raw_probabilities =
      Except.ok [p] ∧
    p.length = 3 ∧ |p.sum - 1| ≤ 1 / 10000 := by
  have hne : p ≠ [] := by
    intro h
    rw [h] at hp
    exact absurd hp.1 (by decide)
  refine ⟨?_, hp.1, hp.2⟩
  rw [image_prediction_some_eq m t p [] hm hne]
  rfl

/-- C4 witness: the theorem applied to the concrete model that outputs the
single distribution row [1/10, 7/10, 1/5]. -/
theorem C4_raw_probabilities_witness :
    (image_prediction (some (fun _ => [[(1 : ℚ)/10, 7/10, 1/5]])) ⟨[1, 1, 1, 3], [9, 9, 9]⟩).map
        PredictionResult.raw_probabilities =
      Except.ok [[(1 : ℚ)/10, 7/10, 1/5]] ∧
    ([(1 : ℚ)/10, 7/10, 1/5] : List ℚ).length = 3 ∧
    |([(1 : ℚ)/10, 7/10, 1/5] : List ℚ).sum - 1| ≤ 1 / 10000 :=
  C4_raw_probabilities (fun _ => [[(1 : ℚ)/10, 7/10, 1/5]]) ⟨[1, 1, 1, 3], [9, 9, 9]⟩
    [(1 : ℚ)/10, 7/10, 1/5] rfl
    (by
      refine ⟨rfl, ?_⟩
      norm_num [List.sum_cons, List.sum_nil])

/-- C5: the class-to-metadata mapping is total with no failure path: every
class_id maps to one of the three static payload entries, and any class_id
outside 0, 1, 2 falls back to the CONTROL metadata entry. -/
theorem C5_mapper_total (class_id : Nat) :
    (mapToPayload class_id = controlDetails ∨ mapToPayload class_id = adDetails ∨
      mapToPayload class_id = pdDetails) ∧
    (class_id ≠ 0 → class_id ≠ 1 → class_id ≠ 2 → mapToPayload class_id = controlDetails) := by
  by_cases h0 : class_id = 0
  · subst h0
    exact ⟨Or.inl (by decide), fun h => absurd rfl h⟩
  by_cases h1 : class_id = 1
  · subst h1
    exact ⟨Or.inr (Or.inl (by decide)), fun _ h => absurd rfl h⟩
  by_cases h2 : class_id = 2
  · subst h2
    exact ⟨Or.inr (Or.inr (by decide)), fun _ _ h => absurd rfl h⟩
  have hfall : mapToPayload class_id = controlDetails := by
    unfold mapToPayload current_prediction
    have hcm : class_mapping class_id = none := by
      unfold class_mapping
      rw [if_neg h0, if_neg h1, if_neg h2]
    rw [hcm]
    decide
  exact ⟨Or.inl hfall, fun _ _ _ => hfall⟩

/-- C5 witness: the theorem applied to the out-of-range class_id 7, which
falls back to the CONTROL metadata entry. -/
theorem C5_mapper_total_witness : mapToPayload 7 = controlDetails :=
  (C5_mapper_total 7).2 (by decide) (by decide) (by decide)

theorem ratAbs_eq_abs (x : ℚ) : ratAbs x = |x| := by
  unfold ratAbs
  by_cases h : x < 0
  · rw [if_pos h, abs_of_neg h]
  · rw [if_neg h, abs_of_nonneg (le_of_not_lt h)]

/-- C1: for every uploaded byte buffer that decodes successfully, passes
validation, and whose resized decode is a grayscale (2-dimensional, any
original size) or RGBA (4-channel, any original size) array — hence of
extent 150 by 150 after the resize — preprocess_image_from_bytes succeeds
with a tensor of shape exactly (1, 150, 150, 3). -/
theorem C1_prepare_shape (b : FileBytes) (a : NPArray)
    (hr : b.decodedResized = some a)
    (hshape : a.shape = [150, 150] ∨ a.shape = [150, 150, 4])
    (hv : (validate_image_for_medical_scan b.decoded).is_valid = true) :
    (preprocess_image_from_bytes b).map NPArray.shape = Except.ok [1, 150, 150, 3] := by
  rcases hshape with h | h
  · simp [preprocess_image_from_bytes, hv, hr, normalize_channels, gray2rgb,
      expand_dims0, h, Except.map]
  · simp [preprocess_image_from_bytes, hv, hr, normalize_channels, rgba2rgb,
      expand_dims0, h, Except.map]

/-- C1 witness: the theorem applied to a concrete 2x2 grayscale upload whose
resized decode is the 150x150 all-zero grayscale array. -/
theorem C1_prepare_shape_witness :
    (preprocess_image_from_bytes
      ⟨some ⟨[2, 2], [0, 0, 0, 0]⟩, some ⟨[150, 150], List.replicate 22500 0⟩⟩).map
        NPArray.shape = Except.ok [1, 150, 150, 3] :=
  C1_prepare_shape ⟨some ⟨[2, 2], [0, 0, 0, 0]⟩, some ⟨[150, 150], List.replicate 22500 0⟩⟩
    ⟨[150, 150], List.replicate 22500 0⟩ rfl (Or.inl rfl) (by decide)

/-- C7: validation never fails the request: a decode failure yields an
accepting result whose reason says validation was skipped, a computation
failure (the channel slicing IndexError on a 3-dimensional array with fewer
than 3 channels) yields the same skipped result, and the only rejecting
outcome of the validator is the deliberate color-photograph heuristic. -/
theorem C7_validation_never_fails :
    validate_image_for_medical_scan none = ⟨true, "Validation skipped due to error."⟩ ∧
    (∀ (a : NPArray) (h w c : Nat), a.shape = [h, w, c] → c < 3 →
      validate_image_for_medical_scan (some a) = ⟨true, "Validation skipped due to error."⟩) ∧
    (∀ d : Option NPArray, (validate_image_for_medical_scan d).is_valid = false →
      (validate_image_for_medical_scan d).reason =
        "This appears to be a color photograph. Please upload a medical scan (MRI, CT, X-ray, etc.).") := by
  refine ⟨rfl, ?_, ?_⟩
  · intro a h w c hs hc
    have hcd : colorDiffQ a = none := by
      unfold colorDiffQ
      rw [hs]
      simp [Nat.not_le.mpr hc]
    unfold validate_image_for_medical_scan
    simp [hs, hcd]
  · intro d hd
    unfold validate_image_for_medical_scan at hd ⊢
    cases d with
    | none => exact absurd hd (by decide)
    | some a =>
      dsimp only at hd ⊢
      by_cases h3 : a.shape.length = 3
      · rw [if_pos h3] at hd ⊢
        cases hcd : colorDiffQ a with
        | none => rw [hcd] at hd; exact absurd hd (by decide)
        | some dq =>
          rw [hcd] at hd
          dsimp only at hd ⊢
          by_cases hgt : dq > 20
          · rw [if_pos hgt]
          · rw [if_neg hgt] at hd
            exact absurd hd (by decide)
      · rw [if_neg h3] at hd; exact absurd hd (by decide)

/-- C7 witness: the theorem applied to a concrete 3-dimensional 2-channel
array, on which the channel slicing raises and validation is skipped. -/
theorem C7_validation_never_fails_witness :
    validate_image_for_medical_scan (some ⟨[1, 1, 2], [7, 7]⟩) =
      ⟨true, "Validation skipped due to error."⟩ :=
  C7_validation_never_fails.2.1 ⟨[1, 1, 2], [7, 7]⟩ 1 1 2 rfl (by decide)

/-- C8: the preprocessor runs the validator first, and when validation
rejects, it fails with the wrapped PreprocessingError carrying the rejection
reason (regardless of anything downstream); moreover every failure of
preprocess_image_from_bytes, on every input, is a wrapped human-readable
message starting with "Failed to preprocess image: ", never a raw failure. -/
theorem C8_wrapped_errors (b : FileBytes)
    (hv : (validate_image_for_medical_scan b.decoded).is_valid = false) :
    preprocess_image_from_bytes b =
      Except.error (preprocessWrap (validate_image_for_medical_scan b.decoded).reason) ∧
    (∀ (b' : FileBytes) (e : String), preprocess_image_from_bytes b' = Except.error e →
      ∃ s, e = "Failed to preprocess image: " ++ s) := by
  constructor
  · unfold preprocess_image_from_bytes
    dsimp only
    rw [if_pos hv]
  · intro b' e he
    unfold preprocess_image_from_bytes at he
    dsimp only at he
    by_cases hv' : (validate_image_for_medical_scan b'.decoded).is_valid = false
    · rw [if_pos hv'] at he
      injection he with h
      exact ⟨(validate_image_for_medical_scan b'.decoded).reason, h.symm⟩
    · rw [if_neg hv'] at he
      cases hb : b'.decodedResized with
      | none =>
        rw [hb] at he
        injection he with h
        exact ⟨"cannot identify image file", h.symm⟩
      | some arr =>
        rw [hb] at he
        cases he

/-- C8 witness: the theorem applied to a concrete pure-red 1x1 RGB upload,
whose validation rejects and whose preprocessing therefore fails with the
wrapped rejection reason. -/
theorem C8_wrapped_errors_witness :
    preprocess_image_from_bytes ⟨some ⟨[1, 1, 3], [255, 0, 0]⟩, none⟩ =
      Except.error
        (preprocessWrap
          (validate_image_for_medical_scan (some ⟨[1, 1, 3], [255, 0, 0]⟩)).reason) ∧
    (∀ (b' : FileBytes) (e : String), preprocess_image_from_bytes b' = Except.error e →
      ∃ s, e = "Failed to preprocess image: " ++ s) :=
  C8_wrapped_errors ⟨some ⟨[1, 1, 3], [255, 0, 0]⟩, none⟩
    (by
      norm_num [validate_image_for_medical_scan, colorDiffQ, channelPlane, meanAbsDiff,
        ratAbs, List.enum, List.enumFrom])

theorem zipWith_ratAbs_sub_self (l : List ℚ) :
    (List.zipWith (fun x y => ratAbs (x - y)) l l).sum = 0 := by
  induction l with
  | nil => rfl
  | cons x xs ih => simp [List.zipWith_cons_cons, sub_self, ratAbs, ih]

theorem meanAbsDiff_self (l : List ℚ) (n : ℚ) : meanAbsDiff l l n = 0 := by
  unfold meanAbsDiff
  rw [zipWith_ratAbs_sub_self]
  exact zero_div n

theorem getLast?_cons_of_getLast? (x v : Nat) (s : List Nat) (h : s.getLast? = some v) :
    (x :: s).getLast? = some v := by
  cases s with
  | nil => cases h
  | cons y ys => rw [List.getLast?_cons_cons]; exact h

/-- C6: for every well-formed decoded image of shape (h, w, 3), validation
rejects — is_valid false, with the color-photograph reason — exactly when
the sum of the mean absolute pairwise channel differences (R-G, G-B, R-B)
over the h*w pixels exceeds 20; every uniformly gray 3-channel image (all
three channel planes equal) is accepted, as is every 2-dimensional
grayscale decode. -/
theorem C6_color_threshold (a : NPArray) (h w : Nat) (hwf : a.wf)
    (hs : a.shape = [h, w, 3]) :
    (((validate_image_for_medical_scan (some a)).is_valid = false) ↔
      meanAbsDiff (channelPlane 3 0 a.data) (channelPlane 3 1 a.data) ((h * w : Nat) : ℚ) +
        meanAbsDiff (channelPlane 3 1 a.data) (channelPlane 3 2 a.data) ((h * w : Nat) : ℚ) +
        meanAbsDiff (channelPlane 3 0 a.data) (channelPlane 3 2 a.data) ((h * w : Nat) : ℚ)
        > 20) ∧
    ((validate_image_for_medical_scan (some a)).is_valid = false →
      (validate_image_for_medical_scan (some a)).reason =
        "This appears to be a color photograph. Please upload a medical scan (MRI, CT, X-ray, etc.).") ∧
    (channelPlane 3 0 a.data = channelPlane 3 1 a.data →
      channelPlane 3 1 a.data = channelPlane 3 2 a.data →
      (validate_image_for_medical_scan (some a)).is_valid = true) ∧
    (∀ g : NPArray, g.shape.length = 2 →
      (validate_image_for_medical_scan (some g)).is_valid = true) := by
  have h3 : a.shape.length = 3 := by rw [hs]; rfl
  have hcd : colorDiffQ a =
      some (meanAbsDiff (channelPlane 3 0 a.data) (channelPlane 3 1 a.data) ((h * w : Nat) : ℚ) +
        meanAbsDiff (channelPlane 3 1 a.data) (channelPlane 3 2 a.data) ((h * w : Nat) : ℚ) +
        meanAbsDiff (channelPlane 3 0 a.data) (channelPlane 3 2 a.data) ((h * w : Nat) : ℚ)) := by
    unfold colorDiffQ
    rw [hs]
    dsimp only
    rw [if_pos (le_refl 3)]
  have hval : validate_image_for_medical_scan (some a) =
      if (meanAbsDiff (channelPlane 3 0 a.data) (channelPlane 3 1 a.data) ((h * w : Nat) : ℚ) +
          meanAbsDiff (channelPlane 3 1 a.data) (channelPlane 3 2 a.data) ((h * w : Nat) : ℚ) +
          meanAbsDiff (channelPlane 3 0 a.data) (channelPlane 3 2 a.data) ((h * w : Nat) : ℚ)
          > 20) then
        ⟨false, "This appears to be a color photograph. Please upload a medical scan (MRI, CT, X-ray, etc.)."⟩
      else ⟨true, "Image accepted for analysis."⟩ := by
    unfold validate_image_for_medical_scan
    dsimp only
    rw [if_pos h3, hcd]
  refine ⟨?_, ?_, ?_, ?_⟩
  · rw [hval]
    by_cases hgt :
        meanAbsDiff (channelPlane 3 0 a.data) (channelPlane 3 1 a.data) ((h * w : Nat) : ℚ) +
        meanAbsDiff (channelPlane 3 1 a.data) (channelPlane 3 2 a.data) ((h * w : Nat) : ℚ) +
        meanAbsDiff (channelPlane 3 0 a.data) (channelPlane 3 2 a.data) ((h * w : Nat) : ℚ) > 20
    · rw [if_pos hgt]
      simpa using hgt
    · rw [if_neg hgt]
      simpa using hgt
  · intro hf
    rw [hval] at hf ⊢
    by_cases hgt :
        meanAbsDiff (channelPlane 3 0 a.data) (channelPlane 3 1 a.data) ((h * w : Nat) : ℚ) +
        meanAbsDiff (channelPlane 3 1 a.data) (channelPlane 3 2 a.data) ((h * w : Nat) : ℚ) +
        meanAbsDiff (channelPlane 3 0 a.data) (channelPlane 3 2 a.data) ((h * w : Nat) : ℚ) > 20
    · rw [if_pos hgt]
    · rw [if_neg hgt] at hf
      exact absurd hf (by decide)
  · intro h01 h12
    rw [hval, h01, h12]
    simp [meanAbsDiff_self]
    norm_num
  · intro g hg
    unfold validate_image_for_medical_scan
    dsimp only
    rw [if_neg (by rw [hg]; decide)]

/-- C6 witness: the theorem applied to a concrete well-formed 1x2 pure-red
RGB image of shape (1, 2, 3). -/
theorem C6_color_threshold_witness :
    (((validate_image_for_medical_scan
        (some ⟨[1, 2, 3], [255, 0, 0, 255, 0, 0]⟩)).is_valid = false) ↔
      meanAbsDiff (channelPlane 3 0 [255, 0, 0, 255, 0, 0])
          (channelPlane 3 1 [255, 0, 0, 255, 0, 0]) ((1 * 2 : Nat) : ℚ) +
        meanAbsDiff (channelPlane 3 1 [255, 0, 0, 255, 0, 0])
          (channelPlane 3 2 [255, 0, 0, 255, 0, 0]) ((1 * 2 : Nat) : ℚ) +
        meanAbsDiff (channelPlane 3 0 [255, 0, 0, 255, 0, 0])
          (channelPlane 3 2 [255, 0, 0, 255, 0, 0]) ((1 * 2 : Nat) : ℚ)
        > 20) ∧
    ((validate_image_for_medical_scan
        (some ⟨[1, 2, 3], [255, 0, 0, 255, 0, 0]⟩)).is_valid = false →
      (validate_image_for_medical_scan
        (some ⟨[1, 2, 3], [255, 0, 0, 255, 0, 0]⟩)).reason =
        "This appears to be a color photograph. Please upload a medical scan (MRI, CT, X-ray, etc.).") ∧
    (channelPlane 3 0 [255, 0, 0, 255, 0, 0] = channelPlane 3 1 [255, 0, 0, 255, 0, 0] →
      channelPlane 3 1 [255, 0, 0, 255, 0, 0] = channelPlane 3 2 [255, 0, 0, 255, 0, 0] →
      (validate_image_for_medical_scan
        (some ⟨[1, 2, 3], [255, 0, 0, 255, 0, 0]⟩)).is_valid = true) ∧
    (∀ g : NPArray, g.shape.length = 2 →
      (validate_image_for_medical_scan (some g)).is_valid = true) :=
  C6_color_threshold ⟨[1, 2, 3], [255, 0, 0, 255, 0, 0]⟩ 1 2 (by decide) rfl

/-- C9 counterexample: a well-formed decodable 2-channel upload (the
grayscale-plus-alpha LA layout, whose numpy decode has shape (h, w, 2)) is
accepted by preprocess_image_from_bytes, yet the returned tensor has last
dimension 2, not 3 — the claimed channel-count invariant fails for source
channel layouts other than grayscale, RGB and RGBA. -/
theorem C9_channel_invariant_counterexample :
    (preprocess_image_from_bytes
      ⟨some ⟨[2, 2, 2], [10, 20, 30, 40, 50, 60, 70, 80]⟩,
       some ⟨[150, 150, 2], List.replicate 45000 100⟩⟩).map NPArray.shape =
      Except.ok [1, 150, 150, 2] ∧
    (⟨[2, 2, 2], [10, 20, 30, 40, 50, 60, 70, 80]⟩ : NPArray).wf ∧
    (⟨[150, 150, 2], List.replicate 45000 100⟩ : NPArray).wf ∧
    ([1, 150, 150, 2] : List Nat) ≠ [1, 150, 150, 3] := by
  refine ⟨rfl, by decide, ?_, by decide⟩
  show (List.replicate 45000 (100 : Nat)).length = _
  rw [List.length_replicate]
  decide

/-- C9 amended: for every accepted input whose resized decode is
2-dimensional, or 3-dimensional with innermost extent 3 or 4,
preprocess_image_from_bytes yields a tensor whose last dimension is exactly
3 (grayscale is channel-replicated, RGBA drops alpha, RGB passes through);
decodes with any other innermost extent — such as the 2-channel
grayscale-plus-alpha layout — are passed through with their channel count
unchanged. -/
theorem C9_channel_count_amended (b : FileBytes) (a : NPArray)
    (hr : b.decodedResized = some a)
    (hshape : a.shape.length = 2 ∨ a.shape.getLast? = some 3 ∨ a.shape.getLast? = some 4)
    (hv : (validate_image_for_medical_scan b.decoded).is_valid = true) :
    (preprocess_image_from_bytes b).map (fun t => t.shape.getLast?) =
      Except.ok (some 3) := by
  have hok : preprocess_image_from_bytes b =
      Except.ok (expand_dims0 (normalize_channels a)) := by
    simp [preprocess_image_from_bytes, hv, hr]
  rw [hok]
  have hlast : (normalize_channels a).shape.getLast? = some 3 := by
    unfold normalize_channels
    by_cases h2 : a.shape.length = 2
    · rw [if_pos h2]
      exact List.getLast?_concat _
    · rw [if_neg h2]
      rcases hshape with h | h | h
      · exact absurd h h2
      · rw [if_neg (by rw [h]; decide)]
        exact h
      · rw [if_pos h]
        exact List.getLast?_concat _
  show Except.ok (1 :: (normalize_channels a).shape).getLast? = Except.ok (some 3)
  rw [getLast?_cons_of_getLast? 1 3 _ hlast]

/-- C9 amended witness: the amended theorem applied to a concrete 1x1
grayscale upload whose resized decode is a 150x150 grayscale array. -/
theorem C9_channel_count_amended_witness :
    (preprocess_image_from_bytes
      ⟨some ⟨[1, 1], [5]⟩, some ⟨[150, 150], List.replicate 22500 8⟩⟩).map
        (fun t => t.shape.getLast?) = Except.ok (some 3) :=
  C9_channel_count_amended ⟨some ⟨[1, 1], [5]⟩, some ⟨[150, 150], List.replicate 22500 8⟩⟩
    ⟨[150, 150], List.replicate 22500 8⟩ rfl (Or.inl rfl) (by decide)

/-- C10: preprocessing performs no value rescaling: whenever it accepts an
input whose resized decode is the array a, the returned tensor is exactly
the batch-expanded, channel-normalized a — so every value in the tensor
is literally one of the raw 0-255 integer channel values of a, with no
division by 255, mean subtraction, or any other numeric transformation. -/
theorem C10_no_value_rescaling (b : FileBytes) (a t : NPArray)
    (hr : b.decodedResized = some a)
    (hok : preprocess_image_from_bytes b = Except.ok t) :
    t = expand_dims0 (normalize_channels a) ∧
    ∀ x ∈ t.data, x ∈ a.data := by
  have ht : t = expand_dims0 (normalize_channels a) := by
    unfold preprocess_image_from_bytes at hok
    dsimp only at hok
    by_cases hv : (validate_image_for_medical_scan b.decoded).is_valid = false
    · rw [if_pos hv] at hok
      cases hok
    · rw [if_neg hv, hr] at hok
      injection hok with h
      exact h.symm
  refine ⟨ht, ?_⟩
  intro x hx
  rw [ht] at hx
  show x ∈ a.data
  have hx' : x ∈ (normalize_channels a).data := hx
  unfold normalize_channels at hx'
  by_cases h2 : a.shape.length = 2
  · rw [if_pos h2] at hx'
    unfold gray2rgb at hx'
    dsimp only at hx'
    rcases List.mem_flatten.mp hx' with ⟨l, hl, hxl⟩
    rcases List.mem_map.mp hl with ⟨v, hv, rfl⟩
    have hxv : x = v := by simpa using hxl
    rw [hxv]
    exact hv
  · rw [if_neg h2] at hx'
    by_cases h4 : a.shape.getLast? = some 4
    · rw [if_pos h4] at hx'
      unfold rgba2rgb at hx'
      dsimp only at hx'
      rcases List.mem_map.mp hx' with ⟨p, hp, rfl⟩
      exact List.snd_mem_of_mem_enum (List.mem_of_mem_filter hp)
    · rw [if_neg h4] at hx'
      exact hx'

/-- C10 witness: the theorem applied to a concrete accepted 1x2 grayscale
upload; every tensor value is one of the two raw source values. -/
theorem C10_no_value_rescaling_witness :
    expand_dims0 (normalize_channels ⟨[1, 2], [9, 7]⟩) =
      expand_dims0 (normalize_channels ⟨[1, 2], [9, 7]⟩) ∧
    ∀ x ∈ (expand_dims0 (normalize_channels ⟨[1, 2], [9, 7]⟩)).data,
      x ∈ ([9, 7] : List Nat) :=
  C10_no_value_rescaling ⟨some ⟨[1, 2], [9, 7]⟩, some ⟨[1, 2], [9, 7]⟩⟩
    ⟨[1, 2], [9, 7]⟩ (expand_dims0 (normalize_channels ⟨[1, 2], [9, 7]⟩)) rfl rfl
